import Mathlib

/-!
Shallow embedding of the anti-bot classifier, challenge solver, recovery
orchestrator and resumable tracking store of `canada_law_scrapper.py`,
together with theorems settling the frozen claims about that code.

The browser page is modelled by the observations the code makes of it:
for each DOM selector the code queries, the model records the result of
that query (an element count, or the inner text of the first match).
External collaborators (speech-to-text, vision inference, S3, navigation)
are modelled as oracle fields of environment records; fallible operations
are modelled with `Except` or `Option` results.
-/

namespace CanadaScrapper

/-! ## Python string primitives

`pyLower` models `str.lower()`, `pyStrip` models `str.strip()`,
`pyIn n h` models the Python expression `n in h` on strings, and
`extractDigits` models `re.sub(r'[^0-9]', '', s)`. -/

def pyLower (s : String) : String := String.mk (s.toList.map Char.toLower)

def pyStrip (s : String) : String :=
  String.mk (((s.toList.dropWhile Char.isWhitespace).reverse.dropWhile Char.isWhitespace).reverse)

def subList (n : List Char) : List Char → Bool
  | [] => n.isEmpty
  | c :: rest => n.isPrefixOf (c :: rest) || subList n rest

def pyIn (needle hay : String) : Bool := subList needle.toList hay.toList

def extractDigits (s : String) : String := String.mk (s.toList.filter Char.isDigit)

/-! ## Constants from the top of `canada_law_scrapper.py` -/

def BASE_URL : String := "https://www.canlii.org"

def START_URL : String := "https://www.canlii.org/ca"

def MAX_CAPTCHA_ATTEMPTS : Nat := 50

def ACCESS_RESTRICTED_WAIT_MIN : Nat := 10

def ACCESS_RESTRICTED_WAIT_MAX : Nat := 20

/-! ## Page model

A `Frame` records, for one frame of the page, the result of every DOM
query that `is_datadome_captcha` / `is_datadome_access_restricted` issue
against that frame.  A count field models `frame.locator(sel).count()`;
an `Option String` field models a locator whose `count()` and first
match's `inner_text()` are both read (`none` = count 0, `some t` =
present with inner text `t`). -/

structure Frame where
  /-- count of `#captcha-container` -/
  captchaContainer : Nat
  /-- count of `#ddv1-captcha-container` -/
  ddv1Container : Nat
  /-- count of `#captcha__frame` -/
  captchaFrameSel : Nat
  /-- count of `#captcha__audio__button` (the audio-toggle control) -/
  audioButton : Nat
  /-- count of `.captcha__human` (the human-verification container) -/
  captchaHuman : Nat
  /-- `.captcha__human__title`: `none` if count 0, else its inner text -/
  humanTitle : Option String
  /-- count of `[data-dd-captcha-container]` -/
  ddAttrContainer : Nat
  /-- count of `.sliderContainer` (the slider control) -/
  sliderContainer : Nat
  /-- count of `#captcha__slider` -/
  captchaSlider : Nat
  /-- `.captcha__robot__warning__why`: `none` if count 0, else its inner text -/
  robotWarningWhy : Option String
  /-- whether a `text=Verification Required` element exists whose closest
      `div` ancestor's HTML contains a captcha/datadome/challenge/modal/overlay keyword -/
  verificationRequiredCtx : Bool
  /-- whether `text=Slide right to secure your access` matches -/
  slideRightText : Bool
  deriving DecidableEq, Repr

/-- The page as observed by the classifier code: its frames
(`page.frames`, main frame included), the set of main-page `text=...`
locators that match (`page.locator("text=s").count() > 0`), the body
text of the main page, and the set of CanLII captcha indicator selectors
that match on the main page. -/
structure Page where
  frames : List Frame
  /-- the strings `s` for which `page.locator("text=" + s).count() > 0` -/
  textLocatorHits : List String
  /-- `page.locator("body").inner_text()` -/
  bodyText : String
  /-- the CanLII captcha indicator selectors with a positive count -/
  canliiHits : List String
  deriving DecidableEq, Repr

/-! ## `is_access_restricted_page` -/

/-- The 18 `text=` indicators scanned by `is_access_restricted_page`. -/
def access_restricted_indicators : List String :=
  ["Access Denied", "access denied", "Access Restricted", "access restricted",
   "temporarily blocked", "temporarily restricted", "Too many requests",
   "too many requests", "rate limit", "Rate Limit", "blocked due to",
   "IP has been blocked", "IP address has been", "automated access",
   "unusual activity", "suspicious activity", "Please try again later",
   "come back later"]

/-- The lower-case phrases `is_access_restricted_page` looks for in the
body text. -/
def blocking_phrases : List String :=
  ["access denied", "access restricted", "temporarily blocked",
   "too many requests", "rate limit exceeded", "ip has been blocked",
   "ip address has been blocked", "automated access detected",
   "unusual activity detected"]

/-- Model of `is_access_restricted_page`: any `text=` indicator matching,
or any blocking phrase contained in the lowered body text. -/
def is_access_restricted_page (p : Page) : Bool :=
  access_restricted_indicators.any (fun s => p.textLocatorHits.contains s)
  || blocking_phrases.any (fun s => pyIn s (pyLower p.bodyText))

/-! ## `is_datadome_captcha` -/

/-- One frame hits a primary DataDome indicator (`#captcha-container`,
`#ddv1-captcha-container`, `#captcha__frame`, `#captcha__audio__button`,
`.captcha__human`, `.captcha__human__title`, `[data-dd-captcha-container]`,
`.sliderContainer`). -/
def framePrimaryHit (f : Frame) : Bool :=
  f.captchaContainer > 0 || f.ddv1Container > 0 || f.captchaFrameSel > 0
  || f.audioButton > 0 || f.captchaHuman > 0 || f.humanTitle.isSome
  || f.ddAttrContainer > 0 || f.sliderContainer > 0

/-- One frame hits a secondary indicator: `Verification Required` in a
captcha-like context, or the slider challenge text. -/
def frameSecondaryHit (f : Frame) : Bool :=
  f.verificationRequiredCtx || f.slideRightText

/-- Model of `is_datadome_captcha`: returns the first frame with a primary
indicator; failing that, the first frame with a secondary indicator;
else `none` (Python returns the frame object or `None`). -/
def is_datadome_captcha (p : Page) : Option Frame :=
  match p.frames.find? framePrimaryHit with
  | some f => some f
  | none => p.frames.find? frameSecondaryHit

/-! ## `is_datadome_access_restricted` -/

/-- Per-frame check of `is_datadome_access_restricted`:
either the `.captcha__human__title` text (lowered, stripped) contains
`"temporarily restricted"` or (`"access"` and `"restricted"`); or the
`.captcha__robot__warning__why` text contains `"unusual activity"` or
`"detected"` while both the audio button (`#captcha__audio__button`) and
the slider (`.sliderContainer, #captcha__slider`) have count 0. -/
def frameAccessRestricted (f : Frame) : Bool :=
  (match f.humanTitle with
   | some t =>
     let tt := pyStrip (pyLower t)
     pyIn "temporarily restricted" tt || (pyIn "access" tt && pyIn "restricted" tt)
   | none => false)
  ||
  (match f.robotWarningWhy with
   | some w =>
     let ww := pyStrip (pyLower w)
     (pyIn "unusual activity" ww || pyIn "detected" ww)
       && f.audioButton == 0 && (f.sliderContainer + f.captchaSlider) == 0
   | none => false)

/-- Model of `is_datadome_access_restricted`: some frame satisfies the
per-frame check (frames that do not match are skipped). -/
def is_datadome_access_restricted (p : Page) : Bool :=
  p.frames.any frameAccessRestricted

/-! ## `is_captcha_page` -/

/-- The CanLII captcha indicator selectors of `is_captcha_page`. -/
def captcha_indicators : List String :=
  ["text=Dear User", "text=please proceed with our captcha test",
   "#captchaForm", "#captchaTag", "text=Happy Searching!", "#captchaTest"]

/-- Model of `is_captcha_page`: access restriction, or a CanLII captcha
indicator, or a DataDome captcha in any frame. -/
def is_captcha_page (p : Page) : Bool :=
  is_access_restricted_page p
  || captcha_indicators.any (fun s => p.canliiHits.contains s)
  || (is_datadome_captcha p).isSome

/-! ## The composite classifier

The spec's `classify` is realized by the dispatch order of
`handle_captcha_interruption` (and `solve_captcha_automatically`):
DataDome access-restriction is checked first, then the page-level
access-restriction scan, then the DataDome (audio/slider) challenge,
then the CanLII text captcha. -/

inductive PageState where
  | accessRestricted
  | audioCaptchaChallenge
  | textCaptcha
  | normal
  deriving DecidableEq, Repr

/-- The classification realized by the recovery code's dispatch order. -/
def classify (p : Page) : PageState :=
  if is_datadome_access_restricted p then .accessRestricted
  else if is_access_restricted_page p then .accessRestricted
  else if (is_datadome_captcha p).isSome then .audioCaptchaChallenge
  else if captcha_indicators.any (fun s => p.canliiHits.contains s) then .textCaptcha
  else .normal

/-- A concrete DataDome block page: human-verification container present,
warning text "unusual activity detected", no audio toggle, no slider. -/
def c1Frame : Frame :=
  { captchaContainer := 0, ddv1Container := 0, captchaFrameSel := 0,
    audioButton := 0, captchaHuman := 1, humanTitle := none,
    ddAttrContainer := 1, sliderContainer := 0, captchaSlider := 0,
    robotWarningWhy := some "Unusual activity with your device detected",
    verificationRequiredCtx := false, slideRightText := false }

def c1Page : Page :=
  { frames := [c1Frame], textLocatorHits := [], bodyText := "", canliiHits := [] }

/-! ## Resumable tracking store

`download_tracking.json` parses to a dict with keys `processed_documents`
and `processed_keys`, each possibly absent (`Option`), holding a JSON
list whose entries are either bare strings (legacy format) or objects
(new format).  `DocInfo` is the object shape built at the single
`mark_as_processed` call site. -/

structure DocInfo where
  key : String
  title : String
  citation : String
  href : String
  url : String
  s3_key : String
  deriving DecidableEq, Repr

/-- An entry of a ledger list: a bare string (legacy) or an object. -/
inductive PDEntry where
  | strE (s : String)
  | docE (d : DocInfo)
  deriving DecidableEq, Repr

structure TrackingData where
  processed_documents : Option (List PDEntry)
  processed_keys : Option (List PDEntry)
  deriving DecidableEq, Repr

/-- Model of the migration step of `load_tracking_data`: if
`data.get("processed_documents")` is truthy (present and non-empty) and
its first entry is a string, copy the list into `processed_keys` and
reset `processed_documents` to `[]`; otherwise return the data as read.
(The Python function also handles the file-missing and parse-error cases
by returning empty ledgers; those paths never reach the migration.) -/
def load_tracking_data (d : TrackingData) : TrackingData :=
  match d.processed_documents with
  | some (PDEntry.strE s :: rest) =>
    { processed_keys := some (PDEntry.strE s :: rest), processed_documents := some [] }
  | _ => d

/-- Model of `is_already_processed`: the key is in
`tracking_data.get("processed_keys", [])` (Python `in`, which on a mixed
list compares the string against each entry), or it equals the `key`
field of some dict entry of `processed_documents`. -/
def is_already_processed (td : TrackingData) (document_key : String) : Bool :=
  (td.processed_keys.getD []).any (fun e => decide (e = PDEntry.strE document_key))
  || ((td.processed_documents.getD []).any (fun e =>
        match e with
        | PDEntry.docE d => decide (d.key = document_key)
        | PDEntry.strE _ => false))

/-- Model of `mark_as_processed`: append `doc_info` to
`processed_documents` (creating the list if absent) unless the key is
already processed; `save_tracking_data` is a synchronous file write with
no effect on the in-memory state. -/
def mark_as_processed (td : TrackingData) (doc_info : DocInfo) : TrackingData :=
  if is_already_processed td doc_info.key then td
  else { td with
         processed_documents :=
           some ((td.processed_documents.getD []) ++ [PDEntry.docE doc_info]) }

/-- Number of entries for a given key in the `processed_documents` ledger. -/
def ledgerEntryCount (td : TrackingData) (k : String) : Nat :=
  ((td.processed_documents.getD []).filter (fun e =>
    match e with
    | PDEntry.docE d => decide (d.key = k)
    | PDEntry.strE _ => false)).length

/-- A document appearing only in the legacy `processed_keys` bucket: the
claim's "exactly one entry after two calls" fails there. -/
def c5Doc : DocInfo :=
  { key := "main_/t/on/xyz", title := "Xyz Act", citation := "SO 2001",
    href := "/t/on/xyz", url := "https://www.canlii.org/t/on/xyz",
    s3_key := "SO 2001_Xyz Act.pdf" }

def c5Legacy : TrackingData :=
  { processed_documents := some [], processed_keys := some [PDEntry.strE "main_/t/on/xyz"] }

/-! ## `wait_for_ip_cooldown` -/

/-- Model of `random.randint(a, b)`: a uniform draw over the closed
range `[a, b]`, indexed by the sample `r`. -/
def randint (a b r : Nat) : Nat := a + r % (b - a + 1)

/-- The minutes drawn by `wait_for_ip_cooldown`. -/
def wait_minutes (r : Nat) : Nat :=
  randint ACCESS_RESTRICTED_WAIT_MIN ACCESS_RESTRICTED_WAIT_MAX r

/-- The realized wait: the countdown loop sleeps 60 seconds once per
minute drawn (`for remaining_minutes in range(wait_minutes, 0, -1)`). -/
def cooldown_sleep_seconds (r : Nat) : Nat := wait_minutes r * 60

/-! ## The DataDome attempt loop of `solve_captcha_automatically`

One iteration of `for attempt in range(1, MAX_CAPTCHA_ATTEMPTS + 1)` calls
`solve_datadome_audio_captcha` (result `True` = solved, `None` = timeout,
`False` = other failure) and then consults `is_datadome_access_restricted`
at most once.  An `Attempt` records both observations for one iteration. -/

inductive SolveRes where
  | solved
  | failed
  | timeout
  deriving DecidableEq, Repr

structure Attempt where
  res : SolveRes
  /-- the value `is_datadome_access_restricted(page)` would return after
  this attempt (the loop reads it at most once per iteration) -/
  restrictedAfter : Bool
  deriving DecidableEq, Repr

inductive DDOutcome where
  /-- `return True`: captcha solved -/
  | solvedOk
  /-- `wait_for_ip_cooldown` then `goto(START_URL)` then recurse into
  `solve_captcha_automatically` -/
  | cooldownRecurse
  /-- the loop gives up (`break` or attempt budget exhausted) and the
  function returns `False`, deferring to manual intervention -/
  | manualWait
  deriving DecidableEq, Repr

/-- Model of the DataDome attempt loop.  The list holds the outcomes of
the remaining iterations of the attempt budget; the `Nat` is
`consecutive_timeouts`.  Returns the loop outcome and the number of solve
attempts actually made.  Mirrors lines 1052-1091 of the source:
a timeout increments the counter and, once the counter reaches 5,
re-invokes the classifier — cooldown if restricted, `break` otherwise —
before any further attempt; a non-timeout failure resets the counter;
every non-returning iteration ends with the mid-loop restriction check. -/
def ddLoop : List Attempt → Nat → DDOutcome × Nat
  | [], _ => (.manualWait, 0)
  | a :: rest, c =>
    match a.res with
    | .solved => (.solvedOk, 1)
    | .timeout =>
      if c + 1 ≥ 5 then
        if a.restrictedAfter then (.cooldownRecurse, 1) else (.manualWait, 1)
      else
        if a.restrictedAfter then (.cooldownRecurse, 1)
        else
          let r := ddLoop rest (c + 1)
          (r.1, r.2 + 1)
    | .failed =>
      if a.restrictedAfter then (.cooldownRecurse, 1)
      else
        let r := ddLoop rest 0
        (r.1, r.2 + 1)

/-- The loop as entered by `solve_captcha_automatically`: counter 0 and
at most `MAX_CAPTCHA_ATTEMPTS` iterations. -/
def dd_solve_phase (attempts : List Attempt) : DDOutcome × Nat :=
  ddLoop (attempts.take MAX_CAPTCHA_ATTEMPTS) 0

/-! ## Recovery control flow and cooldown windows

The recovery code is driven by page observations.  Navigations
(`page.goto`, `page.reload`) advance a position in a stream of
observations; classifier calls read the observation at the current
position.  The attempt loops inside `solve_captcha_automatically` are
abstracted to their three possible exits (solved / give up / cooldown-
and-recurse); their internal structure is `ddLoop` above. -/

structure Obs where
  /-- `is_datadome_captcha(page)` is truthy -/
  ddCaptcha : Bool
  /-- `is_datadome_access_restricted(page)` -/
  ddRestricted : Bool
  /-- `is_access_restricted_page(page)` -/
  accessRestrictedObs : Bool
  /-- a CanLII captcha indicator matches -/
  canliiCaptcha : Bool
  deriving DecidableEq, Repr

/-- `is_captcha_page` over an observation (restriction, CanLII
indicators, or DataDome captcha). -/
def obsIsCaptcha (o : Obs) : Bool :=
  o.accessRestrictedObs || o.canliiCaptcha || o.ddCaptcha

/-- The oracle environment driving `solve_captcha_automatically`. -/
structure ScaEnv where
  page : Nat → Obs
  /-- outcome of the DataDome attempt loop when entered at position `n` -/
  ddPhase : Nat → DDOutcome
  /-- outcome of the CanLII attempt loop when entered at position `n` -/
  canliiPhase : Nat → Bool

/-- The repeated cooldown-and-recheck step (`wait_for_ip_cooldown`;
`goto(START_URL)`; if still restricted: `wait_for_ip_cooldown` again and
`goto(START_URL)` again).  Returns the position after the last
navigation and the number of cooldown windows executed (1 or 2). -/
def cooldown_recheck (check : Obs → Bool) (env : ScaEnv) (pos : Nat) : Nat × Nat :=
  if check (env.page (pos + 1)) then (pos + 2, 2) else (pos + 1, 1)

/-- Model of `solve_captcha_automatically`, restricted to the control
flow among its branches (lines 1019-1094): on a DataDome page that is
access-restricted, run the cooldown-recheck step and then either return
`True` (no captcha left) or recurse on the whole function; on a solvable
DataDome page run the attempt loop, whose cooldown exit also recurses
after one more cooldown window; otherwise the CanLII fallback loop.
`fuel` bounds the recursion depth (the Python recursion is unbounded);
the result is `none` when the fuel runs out, paired with the number of
cooldown windows executed so far. -/
def solve_captcha_automatically : Nat → ScaEnv → Nat → Option Bool × Nat
  | 0, _, _ => (none, 0)
  | f + 1, env, pos =>
    let o := env.page pos
    if o.ddCaptcha then
      if o.ddRestricted then
        let pc := cooldown_recheck (fun o' => o'.ddRestricted) env pos
        if obsIsCaptcha (env.page pc.1) then
          let r := solve_captcha_automatically f env pc.1
          (r.1, pc.2 + r.2)
        else (some true, pc.2)
      else
        match env.ddPhase pos with
        | .solvedOk => (some true, 0)
        | .manualWait => (some false, 0)
        | .cooldownRecurse =>
          let r := solve_captcha_automatically f env (pos + 1)
          (r.1, 1 + r.2)
    else
      (some (env.canliiPhase pos), 0)

/-- An environment in which every observation is a DataDome
access-restricted block page, before and after every navigation. -/
def envAllRestricted : ScaEnv :=
  { page := fun _ =>
      { ddCaptcha := true, ddRestricted := true,
        accessRestrictedObs := false, canliiCaptcha := false },
    ddPhase := fun _ => .manualWait,
    canliiPhase := fun _ => false }

/-! ## The audio solve strategies

`transcribe_audio_captcha` transcribes with Whisper and keeps only digit
characters (`re.sub(r'[^0-9]', '', transcript)`); `none` models a
transcription exception. -/

def transcribe_audio_captcha (transcript : Option String) : Option String :=
  transcript.map extractDigits

/-- Result of one audio solve attempt: the function's return value
(`none` models Python `None`, the timeout signal), the digit string
filled into the response field(s) (if any), and whether the submit
control was clicked. -/
structure AudioSolveOut where
  result : Option Bool
  filled : Option String
  submitted : Bool
  deriving DecidableEq, Repr

/-- Oracle observations consumed by `solve_datadome_audio_captcha`, in
the order the code reads them. -/
structure DDSolveEnv where
  /-- `wait_for_selector` on the captcha container timed out -/
  containerTimeout : Bool
  /-- count of `audio.audio-captcha-track` -/
  audioTrackCount : Nat
  /-- `src` attribute of the audio element -/
  audioUrl : Option String
  /-- HTTP status of the audio download (`none` = request raised) -/
  downloadStatus : Option Nat
  /-- raw Whisper transcript (`none` = transcription raised) -/
  transcript : Option String
  /-- count of `.audio-captcha-inputs` at the first query -/
  inputsCount1 : Nat
  /-- count of `.audio-captcha-inputs` after the one retry wait -/
  inputsCount2 : Nat
  /-- count of `.audio-captcha-submit-button` -/
  verifyButtonCount : Nat
  /-- `is_datadome_captcha` is no longer truthy after submitting -/
  captchaGoneAfter : Bool
  deriving DecidableEq, Repr

/-- Model of `solve_datadome_audio_captcha` (lines 591-730): timeout on
the container returns `None`; missing audio element/URL, failed
download, transcription failure, a digit string that is empty or not
exactly six digits, or a wrong input-field count each return `False`
before anything is filled; otherwise the six digits are filled one per
field, the verify button (when present) is clicked, and the result
follows the post-submit re-classification. -/
def solve_datadome_audio_captcha (env : DDSolveEnv) : AudioSolveOut :=
  if env.containerTimeout then ⟨none, none, false⟩
  else if env.audioTrackCount = 0 then ⟨some false, none, false⟩
  else match env.audioUrl with
  | none => ⟨some false, none, false⟩
  | some _ =>
    match env.downloadStatus with
    | none => ⟨some false, none, false⟩
    | some st =>
      if st ≠ 200 then ⟨some false, none, false⟩
      else match transcribe_audio_captcha env.transcript with
      | none => ⟨some false, none, false⟩
      | some numbers =>
        if numbers = "" ∨ numbers.length ≠ 6 then ⟨some false, none, false⟩
        else
          let inputs := if env.inputsCount1 = 6 then env.inputsCount1 else env.inputsCount2
          if inputs ≠ 6 then ⟨some false, none, false⟩
          else if env.captchaGoneAfter then
            ⟨some true, some numbers, env.verifyButtonCount > 0⟩
          else ⟨some false, some numbers, env.verifyButtonCount > 0⟩

/-- Oracle observations consumed by `solve_canlii_audio_captcha`. -/
structure CanliiSolveEnv where
  /-- `#audioCaptchaTag` present and visible (no toggle needed) -/
  audioVisible : Bool
  /-- count of `#toggleAudio` -/
  toggleCount : Nat
  /-- the forced click on the toggle succeeded -/
  toggleClickOk : Bool
  /-- the JavaScript fallback click succeeded -/
  jsClickOk : Bool
  /-- count of `#audioCaptchaTag` after toggling -/
  audioTagCount : Nat
  /-- `src` attribute of the audio tag after polling -/
  audioSrc : Option String
  /-- HTTP status of the audio download (`none` = request raised) -/
  downloadStatus : Option Nat
  /-- raw Whisper transcript (`none` = transcription raised) -/
  transcript : Option String
  /-- `is_captcha_page` is no longer true after submitting -/
  captchaGoneAfter : Bool
  deriving DecidableEq, Repr

/-- Model of `solve_canlii_audio_captcha` (lines 780-902): missing
toggle, failed clicks, missing audio tag/source, failed download, or a
falsy digit string (`if not numbers`) each return `False`; otherwise the
whole digit string — with no length check — is filled into
`#captchaResponse` and submitted, and the result follows the post-submit
re-classification. -/
def solve_canlii_audio_captcha (env : CanliiSolveEnv) : AudioSolveOut :=
  if ¬ env.audioVisible ∧ env.toggleCount = 0 then ⟨some false, none, false⟩
  else if ¬ env.audioVisible ∧ ¬ env.toggleClickOk ∧ ¬ env.jsClickOk then
    ⟨some false, none, false⟩
  else if env.audioTagCount = 0 then ⟨some false, none, false⟩
  else match env.audioSrc with
  | none => ⟨some false, none, false⟩
  | some _ =>
    match env.downloadStatus with
    | none => ⟨some false, none, false⟩
    | some st =>
      if st ≠ 200 then ⟨some false, none, false⟩
      else match transcribe_audio_captcha env.transcript with
      | none => ⟨some false, none, false⟩
      | some numbers =>
        if numbers = "" then ⟨some false, none, false⟩
        else if env.captchaGoneAfter then ⟨some true, some numbers, true⟩
        else ⟨some false, some numbers, true⟩

/-- A CanLII solve attempt whose transcript yields only five digits. -/
def c2Env : CanliiSolveEnv :=
  { audioVisible := true, toggleCount := 1, toggleClickOk := true,
    jsClickOk := true, audioTagCount := 1, audioSrc := some "/some/audio.wav",
    downloadStatus := some 200, transcript := some " 1 2 3 4 5 ",
    captchaGoneAfter := false }

/-- A DataDome solve attempt with a five-digit transcript, everything
else in order. -/
def c2DDEnv : DDSolveEnv :=
  { containerTimeout := false, audioTrackCount := 1,
    audioUrl := some "https://audio", downloadStatus := some 200,
    transcript := some " 1 2 3 4 5 ", inputsCount1 := 6, inputsCount2 := 6,
    verifyButtonCount := 1, captchaGoneAfter := true }

/-! ## `process_legislation_document` -/

/-- Model of `sanitize_filename`: replace the characters invalid in
filenames with underscores. -/
def sanitize_filename (s : String) : String :=
  String.mk (s.toList.map (fun c =>
    if c ∈ ['<', '>', ':', '"', '/', '\\', '|', '?', '*'] then '_' else c))

/-- The observable side effects of `process_legislation_document`. -/
inductive PEffect where
  /-- `page.goto` on the document URL -/
  | navigate
  /-- `handle_captcha_interruption` invoked -/
  | recover
  /-- `extract_document_content` invoked -/
  | extract
  /-- `create_pdf_from_html` invoked -/
  | pdfGen
  /-- `upload_to_s3` invoked -/
  | upload
  /-- `delete_local_file` invoked -/
  | deleteLocal
  /-- `mark_as_processed` persisted the tracking data -/
  | ledgerWrite
  deriving DecidableEq, Repr

/-- Collaborator outcomes for one `process_legislation_document` run. -/
structure ProcEnv where
  /-- `is_captcha_page` after navigating to the document -/
  captchaOnDoc : Bool
  /-- `handle_captcha_interruption` returned `True` -/
  recoverOk : Bool
  /-- `extract_document_content` result (`none` = failed / not in force) -/
  extractResult : Option (String × String)
  /-- `create_pdf_from_html` succeeded -/
  pdfOk : Bool
  /-- `upload_to_s3` succeeded -/
  uploadOk : Bool
  deriving DecidableEq, Repr

/-- Model of `process_legislation_document` (lines 1541-1608): build the
document key, short-circuit on `is_already_processed`, then navigate,
recover from captcha if needed, extract, render, upload, and mark
processed.  Returns the Python return value, the tracking state, and the
effect trace. -/
def process_legislation_document (env : ProcEnv) (td : TrackingData)
    (href title citation pfx : String) : Bool × TrackingData × List PEffect :=
  let doc_key := pfx ++ "_" ++ href
  if is_already_processed td doc_key then (false, td, [])
  else
    let safe_filename :=
      if citation ≠ "" then
        sanitize_filename (String.mk ((citation ++ "_" ++ title).toList.take 150))
      else sanitize_filename (String.mk (title.toList.take 150))
    let s3k := safe_filename ++ ".pdf"
    let effs0 : List PEffect := [.navigate]
    if env.captchaOnDoc then
      if env.recoverOk then
        processBody env td doc_key href title citation s3k
          (effs0 ++ [.recover, .navigate])
      else (false, td, effs0 ++ [.recover])
    else processBody env td doc_key href title citation s3k effs0
where
  /-- the extraction / PDF / upload / mark tail of the function -/
  processBody (env : ProcEnv) (td : TrackingData) (doc_key href title citation s3k : String)
      (effs : List PEffect) : Bool × TrackingData × List PEffect :=
    match env.extractResult with
    | none => (false, td, effs ++ [.extract])
    | some _ =>
      if env.pdfOk then
        if env.uploadOk then
          (true,
           mark_as_processed td
             { key := doc_key, title := title, citation := citation,
               href := href, url := BASE_URL ++ href, s3_key := s3k },
           effs ++ [.extract, .pdfGen, .upload, .deleteLocal, .ledgerWrite])
        else (false, td, effs ++ [.extract, .pdfGen, .upload])
      else (false, td, effs ++ [.extract, .pdfGen])

/-! ## `handle_captcha_interruption`

The whole body of `handle_captcha_interruption` runs inside one
`try/except` whose handler logs and returns `False`.  `handle_body`
models the body in an exception monad: `page.goto` /
`wait_for_load_state` and `solve_captcha_automatically` (which has no
top-level handler of its own) may raise; the classifier helpers swallow
their own exceptions and are total. -/

structure HEnv where
  /-- observation stream; navigations advance the position -/
  page : Nat → Obs
  /-- `page.goto`+`wait_for_load_state` towards position `n` raises -/
  gotoFails : Nat → Bool
  /-- result of `solve_captcha_automatically` entered at position `n`
  (`error` = an exception escaped the solver) -/
  scaResult : Nat → Except Unit Bool
  /-- the `page.wait_for_timeout(2000)` after a successful solve raises -/
  postSolveWaitFails : Nat → Bool
  /-- a `page.wait_for_timeout(5000)` inside the manual-wait loop raises -/
  manualWaitFails : Nat → Bool

/-- Navigation step: models `page.goto(START_URL, ...)` plus
`page.wait_for_load_state(...)`. -/
def hgoto (env : HEnv) (pos : Nat) : Except Unit Unit :=
  if env.gotoFails pos then .error () else .ok ()

/-- The solve-or-wait-for-manual tail shared by all three branches:
run the solver; on success wait briefly and report `True`; on failure
poll `is_captcha_page` until the captcha clears externally (modelled as
terminating unless a wait raises) and report `True`. -/
def solveOrManual (env : HEnv) (p : Nat) : Except Unit Bool := do
  let b ← env.scaResult p
  if b then
    if env.postSolveWaitFails p then Except.error () else pure true
  else
    if env.manualWaitFails p then Except.error () else pure true

/-- The body of `handle_captcha_interruption` (lines 1189-1287): the
DataDome-restricted branch, the page-restricted branch, and the
navigate-to-homepage-and-solve branch, each built from cooldowns (which
cannot raise), navigations (which can), and the solver tail. -/
def handle_body (env : HEnv) : Except Unit Bool := do
  let o0 := env.page 0
  if o0.ddRestricted then
    let _ ← hgoto env 1
    let p ← if (env.page 1).ddRestricted then do
        let _ ← hgoto env 2
        pure 2
      else pure 1
    let oc := env.page p
    if obsIsCaptcha oc && ! oc.ddRestricted then solveOrManual env p
    else pure true
  else if o0.accessRestrictedObs then
    let _ ← hgoto env 1
    let p ← if (env.page 1).accessRestrictedObs then do
        let _ ← hgoto env 2
        pure 2
      else pure 1
    let oc := env.page p
    if obsIsCaptcha oc && ! oc.accessRestrictedObs then solveOrManual env p
    else pure true
  else
    let _ ← hgoto env 1
    let p ← if (env.page 1).accessRestrictedObs then do
        let _ ← hgoto env 2
        pure 2
      else pure 1
    if obsIsCaptcha (env.page p) then solveOrManual env p
    else pure true

/-- Model of `handle_captcha_interruption`: the body under the outer
`try/except`, whose handler returns `False`. -/
def handle_captcha_interruption (env : HEnv) : Bool :=
  match handle_body env with
  | .ok b => b
  | .error _ => false

/-- An environment in which the recovery navigation to the homepage
raises. -/
def c9Env : HEnv :=
  { page := fun _ =>
      { ddCaptcha := true, ddRestricted := false,
        accessRestrictedObs := false, canliiCaptcha := false },
    gotoFails := fun _ => true,
    scaResult := fun _ => .ok true,
    postSolveWaitFails := fun _ => false,
    manualWaitFails := fun _ => false }

/-! ## `is_document_in_force` -/

/-- The warning phrases that mark a document as not in force. -/
def not_in_force_markers : List String := ["repealed", "spent", "not in force"]

/-- One record of `skipped_documents.json`. -/
structure SkipRec where
  title : String
  href : String
  url : String
  reason : String
  deriving DecidableEq, Repr

/-- Model of `save_skipped_document`: append unless an entry with the
same `href` already exists; returns the entries actually added. -/
def save_skipped_document (skippedHrefs : List String) (doc : SkipRec) : List SkipRec :=
  if skippedHrefs.contains doc.href then [] else [doc]

/-- DOM observations of the warning-banner inspection; `error` models
the query raising. -/
structure ForceEnv where
  /-- `page.locator("#warnings .warning").count()` -/
  warningCount : Except Unit Nat
  /-- `warning_elements.all_inner_texts()` -/
  warningTexts : Except Unit (List String)
  /-- hrefs already present in the skip ledger -/
  skippedHrefs : List String

/-- Model of `is_document_in_force` (lines 354-377): scan the warning
banners; the first banner containing a not-in-force marker is saved to
the skip ledger and the function returns `False`; no banner (or a
raising inspection, caught by the `except` handler) returns `True`.
The second component is the list of skip-ledger entries added. -/
def is_document_in_force (env : ForceEnv) (href title : String) : Bool × List SkipRec :=
  match env.warningCount with
  | .error _ => (true, [])
  | .ok n =>
    if n > 0 then
      match env.warningTexts with
      | .error _ => (true, [])
      | .ok texts =>
        match texts.find? (fun t =>
          not_in_force_markers.any (fun m => pyIn m (pyLower t))) with
        | some t =>
          (false, save_skipped_document env.skippedHrefs
                    { title := title, href := href, url := BASE_URL ++ href, reason := t })
        | none => (true, [])
    else (true, [])

/-! ## Theorems settling the claims -/

/-! ### Claim C1 -/

/-- C1: for every page carrying a present-but-non-functional DataDome
human-verification container — the container (`.captcha__human`) present,
the access-restriction warning text (`.captcha__robot__warning__why`
containing "unusual activity" or "detected") shown, and both the
audio-toggle control and the slider control absent —
`is_datadome_access_restricted` returns `True`, and the classification
realized by the recovery code's dispatch order is `AccessRestricted`,
never a solvable-challenge state. -/
theorem C1_nonfunctional_container_access_restricted
    (p : Page) (f : Frame) (w : String)
    (hf : f ∈ p.frames)
    (hcont : 0 < f.captchaHuman)
    (hw : f.robotWarningWhy = some w)
    (htext : pyIn "unusual activity" (pyStrip (pyLower w)) = true ∨
             pyIn "detected" (pyStrip (pyLower w)) = true)
    (haud : f.audioButton = 0)
    (hsl : f.sliderContainer = 0)
    (hsl2 : f.captchaSlider = 0) :
    is_datadome_access_restricted p = true ∧ classify p = PageState.accessRestricted := by
  have hfr : frameAccessRestricted f = true := by
    unfold frameAccessRestricted
    rw [hw, haud, hsl, hsl2]
    rcases htext with h | h <;> simp [h]
  have h1 : is_datadome_access_restricted p = true := by
    unfold is_datadome_access_restricted
    exact List.any_eq_true.mpr ⟨f, hf, hfr⟩
  refine ⟨h1, ?_⟩
  unfold classify
  rw [h1]
  rfl

/-- C1 witness: the theorem applied to the concrete block page. -/
theorem C1_witness :
    is_datadome_access_restricted c1Page = true ∧
    classify c1Page = PageState.accessRestricted :=
  C1_nonfunctional_container_access_restricted c1Page c1Frame
    "Unusual activity with your device detected"
    (by decide) (by decide) (by decide) (Or.inr (by decide))
    (by decide) (by decide) (by decide)

/-! ### Claim C2 -/

/-- C2 counterexample: the CanLII strategy fills and submits a five-digit
transcript — the claim's "fewer or more than six digits is never filled
or submitted" fails for `solve_canlii_audio_captcha`, which only rejects
an empty digit string. -/
theorem C2_counterexample :
    (extractDigits " 1 2 3 4 5 ").length ≠ 6 ∧
    (solve_canlii_audio_captcha c2Env).filled = some "12345" ∧
    (solve_canlii_audio_captcha c2Env).submitted = true := by decide

/-- C2 amended: the DataDome strategy treats any extracted digit string
that is not exactly six digits as a failure — nothing filled, nothing
submitted, never a success result; the CanLII strategy rejects only an
empty digit string and fills/submits any non-empty digit string
regardless of its length. -/
theorem C2_six_digit_gate :
    (∀ (env : DDSolveEnv) (t : String), env.transcript = some t →
       (extractDigits t).length ≠ 6 →
       (solve_datadome_audio_captcha env).filled = none ∧
       (solve_datadome_audio_captcha env).submitted = false ∧
       (solve_datadome_audio_captcha env).result ≠ some true) ∧
    (∀ (env : CanliiSolveEnv) (t : String), env.transcript = some t →
       extractDigits t = "" →
       solve_canlii_audio_captcha env = ⟨some false, none, false⟩) := by
  constructor
  · intro env t ht hlen
    unfold solve_datadome_audio_captcha transcribe_audio_captcha
    rw [ht]
    simp only [Option.map_some']
    repeat' split
    all_goals first
      | exact ⟨rfl, rfl, by simp⟩
      | simp_all
  · intro env t ht hempty
    unfold solve_canlii_audio_captcha transcribe_audio_captcha
    rw [ht]
    simp only [Option.map_some']
    repeat' split
    all_goals first
      | rfl
      | simp_all

/-- C2 witness: the amended theorem applied to concrete attempts. -/
theorem C2_witness :
    ((extractDigits " 1 2 3 4 5 ").length ≠ 6 ∧
      (solve_datadome_audio_captcha c2DDEnv).filled = none ∧
      (solve_datadome_audio_captcha c2DDEnv).submitted = false) ∧
    (extractDigits "no code heard" = "" ∧
      solve_canlii_audio_captcha { c2Env with transcript := some "no code heard" }
        = ⟨some false, none, false⟩) :=
  ⟨⟨by decide,
    (C2_six_digit_gate.1 c2DDEnv " 1 2 3 4 5 " rfl (by decide)).1,
    (C2_six_digit_gate.1 c2DDEnv " 1 2 3 4 5 " rfl (by decide)).2.1⟩,
   ⟨by decide,
    C2_six_digit_gate.2 { c2Env with transcript := some "no code heard" }
      "no code heard" rfl (by decide)⟩⟩

/-! ### Claim C3 -/

/-- C3: (i) after five consecutive timeouts with the classifier reporting
AccessRestricted at the fifth, the loop switches to cooldown having made
exactly five solve attempts — no sixth attempt; (ii) five consecutive
timeouts with the classifier not reporting restriction also stop the
loop after exactly five attempts (manual-intervention fallback); (iii) a
non-timeout failure resets the consecutive-timeout counter to 0. -/
theorem C3_consecutive_timeout_reclassification :
    (∀ rest : List Attempt,
       ddLoop (List.replicate 4 ⟨.timeout, false⟩ ++ [⟨.timeout, true⟩] ++ rest) 0
         = (.cooldownRecurse, 5)) ∧
    (∀ rest : List Attempt,
       ddLoop (List.replicate 5 ⟨.timeout, false⟩ ++ rest) 0
         = (.manualWait, 5)) ∧
    (∀ (rest : List Attempt) (c : Nat),
       ddLoop (⟨.failed, false⟩ :: rest) c
         = ((ddLoop rest 0).1, (ddLoop rest 0).2 + 1)) :=
  ⟨fun _ => rfl, fun _ => rfl, fun _ _ => rfl⟩

/-! ### Claim C4 -/

/-- C4 counterexample: in a single entry into the recovery flow on a page
that remains AccessRestricted, `solve_captcha_automatically` has already
executed four cooldown windows within two recursion levels — more than
the two windows the claim allows — and has not escalated to a
manual-intervention mode. -/
theorem C4_counterexample :
    (solve_captcha_automatically 2 envAllRestricted 0).2 = 4 ∧
    ¬ (solve_captcha_automatically 2 envAllRestricted 0).2 ≤ 2 := by
  constructor <;> decide

theorem sca_allRestricted (f : Nat) : ∀ p : Nat,
    solve_captcha_automatically f envAllRestricted p = (none, 2 * f) := by
  induction f with
  | zero => intro p; rfl
  | succ m ihm =>
    intro p
    have step : solve_captcha_automatically (m + 1) envAllRestricted p
        = ((solve_captcha_automatically m envAllRestricted (p + 2)).1,
           2 + (solve_captcha_automatically m envAllRestricted (p + 2)).2) := rfl
    rw [step, ihm]
    simp only [Prod.mk.injEq]
    exact ⟨trivial, by omega⟩

/-- C4 amended: each cooldown-and-recheck cycle executes at most two
cooldown windows (one initial window plus at most one repeat), but
`solve_captcha_automatically` re-enters itself after each cycle while
the page remains AccessRestricted, executing two further cooldown
windows per recursion level without bound and never escalating to a
manual-intervention mode. -/
theorem C4_cooldown_windows :
    (∀ (check : Obs → Bool) (env : ScaEnv) (pos : Nat),
       (cooldown_recheck check env pos).2 ≤ 2) ∧
    (∀ f : Nat, solve_captcha_automatically f envAllRestricted 0 = (none, 2 * f)) := by
  refine ⟨?_, fun f => sca_allRestricted f 0⟩
  intro check env pos
  unfold cooldown_recheck
  split <;> simp

/-! ### Claim C5 -/

theorem is_already_processed_after_mark (td : TrackingData) (i : DocInfo)
    (h : is_already_processed td i.key = false) :
    is_already_processed (mark_as_processed td i) i.key = true := by
  unfold mark_as_processed
  rw [h]
  simp only [Bool.false_eq_true, if_false]
  unfold is_already_processed
  simp [List.any_append]

/-- C5 counterexample: starting from a (reachable, legacy-migrated)
tracking state whose `processed_keys` bucket already holds the key,
calling `mark_as_processed` twice leaves zero entries for that key in
the `processed_documents` ledger — not exactly one, as the claim states
for every tracking-data state. -/
theorem C5_counterexample :
    ledgerEntryCount (mark_as_processed (mark_as_processed c5Legacy c5Doc) c5Doc)
      c5Doc.key ≠ 1 := by decide

/-- C5 amended: `mark_as_processed` is idempotent as a state transformer
(the second call with the same key is a no-op on the ledger), and from
any state in which the key is not yet recorded, calling it twice yields
exactly one entry for that key in `processed_documents`. -/
theorem C5_mark_as_processed_idempotent (td : TrackingData) (i : DocInfo)
    (h : is_already_processed td i.key = false) :
    mark_as_processed (mark_as_processed td i) i = mark_as_processed td i ∧
    ledgerEntryCount (mark_as_processed (mark_as_processed td i) i) i.key = 1 := by
  have hnoop : ∀ s : TrackingData, is_already_processed s i.key = true →
      mark_as_processed s i = s := by
    intro s hs
    unfold mark_as_processed
    rw [hs]
    simp
  have h2 := is_already_processed_after_mark td i h
  refine ⟨hnoop _ h2, ?_⟩
  rw [hnoop _ h2]
  have hcount0 : ledgerEntryCount td i.key = 0 := by
    unfold is_already_processed at h
    unfold ledgerEntryCount
    rw [List.length_eq_zero, List.filter_eq_nil_iff]
    intro e he
    rcases Bool.or_eq_false_iff.mp h with ⟨-, hpd⟩
    have := List.any_eq_false.mp hpd e he
    simp_all
  unfold mark_as_processed
  rw [h]
  simp only [Bool.false_eq_true, if_false]
  unfold ledgerEntryCount at hcount0 ⊢
  simp [List.filter_append, hcount0]

/-- C5 witness: a fresh state, a fresh key, two calls, one entry. -/
theorem C5_witness :
    is_already_processed { processed_documents := none, processed_keys := none } c5Doc.key = false ∧
    mark_as_processed (mark_as_processed { processed_documents := none, processed_keys := none } c5Doc) c5Doc
      = mark_as_processed { processed_documents := none, processed_keys := none } c5Doc ∧
    ledgerEntryCount (mark_as_processed (mark_as_processed { processed_documents := none, processed_keys := none } c5Doc) c5Doc) c5Doc.key = 1 :=
  ⟨by decide,
   (C5_mark_as_processed_idempotent _ c5Doc (by decide)).1,
   (C5_mark_as_processed_idempotent _ c5Doc (by decide)).2⟩

/-! ### Claim C6 -/

/-- C6: for every non-empty legacy-format ledger (`processed_documents`
a flat list of bare key strings), `load_tracking_data` (total in this
model: the migration raises nothing) moves the keys into the
`processed_keys` bucket, empties `processed_documents`, and afterwards
`is_already_processed` returns `True` for every key of the legacy list. -/
theorem C6_legacy_migration (ks : List String) (hne : ks ≠ []) :
    (load_tracking_data ⟨some (ks.map PDEntry.strE), none⟩).processed_keys
      = some (ks.map PDEntry.strE) ∧
    (load_tracking_data ⟨some (ks.map PDEntry.strE), none⟩).processed_documents
      = some [] ∧
    ∀ k ∈ ks,
      is_already_processed (load_tracking_data ⟨some (ks.map PDEntry.strE), none⟩) k = true := by
  cases ks with
  | nil => exact absurd rfl hne
  | cons k0 rest =>
    refine ⟨rfl, rfl, ?_⟩
    intro k hk
    unfold is_already_processed load_tracking_data
    simp only [List.map_cons, Option.getD_some]
    apply Bool.or_eq_true_iff.mpr
    left
    refine List.any_eq_true.mpr ⟨PDEntry.strE k, ?_, by simp⟩
    rw [← List.map_cons]
    exact List.mem_map_of_mem _ hk

/-- C6 witness: a concrete two-key legacy ledger. -/
theorem C6_witness :
    (load_tracking_data ⟨some (["main_/t/on/xyz", "reg_/t/on/abc"].map PDEntry.strE), none⟩).processed_documents = some [] ∧
    is_already_processed (load_tracking_data ⟨some (["main_/t/on/xyz", "reg_/t/on/abc"].map PDEntry.strE), none⟩) "reg_/t/on/abc" = true :=
  ⟨(C6_legacy_migration ["main_/t/on/xyz", "reg_/t/on/abc"] (by decide)).2.1,
   (C6_legacy_migration ["main_/t/on/xyz", "reg_/t/on/abc"] (by decide)).2.2
     "reg_/t/on/abc" (by decide)⟩

/-! ### Claim C7 -/

/-- C7: every realized cooldown wait is an integer number of minutes in
the closed band `[ACCESS_RESTRICTED_WAIT_MIN, ACCESS_RESTRICTED_WAIT_MAX]
= [10, 20]` — never below 10 or above 20 minutes — and every value of
the band is attainable (the draw ranges over the whole closed band). -/
theorem C7_cooldown_band (r : Nat) :
    ACCESS_RESTRICTED_WAIT_MIN ≤ wait_minutes r ∧
    wait_minutes r ≤ ACCESS_RESTRICTED_WAIT_MAX ∧
    cooldown_sleep_seconds r = 60 * wait_minutes r ∧
    (∀ m, ACCESS_RESTRICTED_WAIT_MIN ≤ m → m ≤ ACCESS_RESTRICTED_WAIT_MAX →
      ∃ s, wait_minutes s = m) := by
  refine ⟨?_, ?_, by unfold cooldown_sleep_seconds; ring, ?_⟩
  · unfold wait_minutes randint ACCESS_RESTRICTED_WAIT_MIN
    omega
  · have : r % 11 < 11 := Nat.mod_lt _ (by norm_num)
    unfold wait_minutes randint ACCESS_RESTRICTED_WAIT_MIN ACCESS_RESTRICTED_WAIT_MAX at *
    omega
  · intro m h1 h2
    refine ⟨m - ACCESS_RESTRICTED_WAIT_MIN, ?_⟩
    have : (m - 10) % 11 = m - 10 := Nat.mod_eq_of_lt (by
      unfold ACCESS_RESTRICTED_WAIT_MIN ACCESS_RESTRICTED_WAIT_MAX at *; omega)
    unfold wait_minutes randint ACCESS_RESTRICTED_WAIT_MIN ACCESS_RESTRICTED_WAIT_MAX at *
    omega

/-- C7 witness: the band bounds at a concrete draw. -/
theorem C7_witness :
    ACCESS_RESTRICTED_WAIT_MIN ≤ wait_minutes 7 ∧
    wait_minutes 7 ≤ ACCESS_RESTRICTED_WAIT_MAX :=
  ⟨(C7_cooldown_band 7).1, (C7_cooldown_band 7).2.1⟩

/-! ### Claim C8 -/

/-- C8: for every document key already recorded as complete,
`process_legislation_document` returns `False` with an empty effect
trace — no navigation, extraction, PDF generation, upload, or ledger
write — and the tracking data unchanged. -/
theorem C8_already_processed_short_circuits
    (env : ProcEnv) (td : TrackingData) (href title citation pfx : String)
    (h : is_already_processed td (pfx ++ "_" ++ href) = true) :
    process_legislation_document env td href title citation pfx = (false, td, []) := by
  simp [process_legislation_document, h]

/-- C8 witness: a completed key short-circuits a concrete run. -/
theorem C8_witness :
    process_legislation_document
      { captchaOnDoc := false, recoverOk := true,
        extractResult := some ("Xyz Act", "<div></div>"), pdfOk := true, uploadOk := true }
      { processed_documents := some [PDEntry.docE c5Doc], processed_keys := none }
      "/t/on/xyz" "Xyz Act" "SO 2001" "main" =
      (false, { processed_documents := some [PDEntry.docE c5Doc], processed_keys := none }, []) :=
  C8_already_processed_short_circuits _ _ "/t/on/xyz" "Xyz Act" "SO 2001" "main" (by decide)

/-! ### Claim C9 -/

/-- C9: `handle_captcha_interruption` always returns a boolean to its
caller: when its body raises (navigation or page-operation error) the
exception is caught and the function returns `False`; otherwise it
returns the body's boolean. -/
theorem C9_exceptions_caught :
    (∀ (env : HEnv) (e : Unit), handle_body env = .error e →
       handle_captcha_interruption env = false) ∧
    (∀ (env : HEnv) (b : Bool), handle_body env = .ok b →
       handle_captcha_interruption env = b) := by
  constructor <;> intro env x h <;> unfold handle_captcha_interruption <;> rw [h]

/-- C9 witness: on the raising environment the body errors and the
function returns `False` instead of propagating. -/
theorem C9_witness :
    handle_body c9Env = .error () ∧ handle_captcha_interruption c9Env = false :=
  ⟨rfl, (C9_exceptions_caught).1 c9Env () rfl⟩

/-! ### Claim C10 -/

/-- C10: when the warning-banner inspection raises (the count query or
the text read), `is_document_in_force` returns `True` — the document is
treated as in force — and adds nothing to the skipped-documents ledger. -/
theorem C10_in_force_fails_open (env : ForceEnv) (href title : String)
    (h : env.warningCount = .error () ∨ env.warningTexts = .error ()) :
    is_document_in_force env href title = (true, []) := by
  unfold is_document_in_force
  rcases h with h | h
  · rw [h]
  · split
    · rfl
    · rw [h]
      split <;> rfl

/-- C10 witness: a concrete raising inspection. -/
theorem C10_witness :
    is_document_in_force
      { warningCount := .ok 2, warningTexts := .error (), skippedHrefs := [] }
      "/t/on/xyz" "Xyz Act" = (true, []) :=
  C10_in_force_fails_open _ "/t/on/xyz" "Xyz Act" (Or.inr rfl)

end CanadaScrapper
